import Mathlib

/-
  Verification development for the CertMagic certificate issuance/renewal engine.

  The persistence layer (src/lib/acme-storage.ts) keeps four kinds of durable
  records as files; we model the file system as four association lists keyed by
  strings.  The SHA-256-hex file names derived from order URLs are modelled by
  keying pending records directly on the order URL (the hash is injective for
  all practical purposes and the code never depends on its shape).

  Fallible file writes are modelled by explicit Boolean parameters saying
  whether the corresponding fs.writeFile call succeeds; a fs.unlink whose
  errors the code swallows entirely is modelled as a total state update.
  Each modelled function returns the updated store, plus a Bool success flag
  when the original function can reject (throw).
-/

namespace CertMagic

/-- Lookup in an association list, first match wins (a file system has at most
one file per name, and insertion below keeps keys unique). -/
def kvLookup {α : Type} : List (String × α) → String → Option α
  | [], _ => none
  | (k, v) :: t, key => if k = key then some v else kvLookup t key

/-- Deleting a file: drop every entry with the given key. -/
def kvErase {α : Type} (l : List (String × α)) (key : String) : List (String × α) :=
  l.filter (fun p => decide (p.1 ≠ key))

/-- Writing a file (fs.writeFile overwrites): replace any entry with the key. -/
def kvInsert {α : Type} (l : List (String × α)) (key : String) (v : α) : List (String × α) :=
  (key, v) :: kvErase l key

theorem kvLookup_erase_self {α : Type} (l : List (String × α)) (k : String) :
    kvLookup (kvErase l k) k = none := by
  induction l with
  | nil => rfl
  | cons p t ih =>
    by_cases h : p.1 = k
    · simpa [kvErase, h] using ih
    · simpa [kvErase, kvLookup, h] using ih

theorem kvLookup_none_keys {α : Type} (l : List (String × α)) (k : String)
    (h : kvLookup l k = none) : ∀ p ∈ l, p.1 ≠ k := by
  induction l with
  | nil => intro p hp; cases hp
  | cons q t ih =>
    by_cases hq : q.1 = k
    · simp [kvLookup, hq] at h
    · intro p hp
      rcases List.mem_cons.mp hp with rfl | hmem
      · exact hq
      · exact ih (by simpa [kvLookup, hq] using h) p hmem

theorem kvErase_of_lookup_none {α : Type} (l : List (String × α)) (k : String)
    (h : kvLookup l k = none) : kvErase l k = l := by
  simp only [kvErase, List.filter_eq_self, decide_eq_true_eq]
  intro a hab
  exact kvLookup_none_keys l k h a hab

theorem kvErase_idem {α : Type} (l : List (String × α)) (k : String) :
    kvErase (kvErase l k) k = kvErase l k := by
  simp only [kvErase, List.filter_filter, Bool.and_self]

theorem kvLookup_insert_self {α : Type} (l : List (String × α)) (k : String) (v : α) :
    kvLookup (kvInsert l k v) k = some v := by
  simp [kvInsert, kvLookup]

/-- DNS provider configuration (provider identifier plus API key), as in
cert-magic.ts interface DnsConfig. -/
structure DnsConfig where
  provider : String
  apiKey : String
deriving DecidableEq

/-- PendingOrderData from acme-storage.ts: the full context of an in-flight
manual HTTP-01 order. -/
structure PendingOrderData where
  domain : String
  challengeType : String
  challengeUrl : String
  token : String
  keyAuthorization : String
  privateKeyPem : String
  csrPem : String
deriving DecidableEq

/-- CertificateConfig from acme-storage.ts: the per-domain configuration
stored alongside an issued certificate, read back at renewal time. -/
structure CertificateConfig where
  domain : String
  challengeType : String
  dnsConfig : Option DnsConfig
deriving DecidableEq

/-- The certificate chain and private key files stored per domain. -/
structure CertFiles where
  certificatePem : String
  privateKeyPem : String
deriving DecidableEq

/-- The durable state of the storage layer: pending orders keyed by order URL,
challenge responses keyed by token, certificates and configs keyed by domain. -/
structure Store where
  pending : List (String × PendingOrderData)
  challenges : List (String × String)
  certs : List (String × CertFiles)
  configs : List (String × CertificateConfig)
deriving DecidableEq

def emptyStore : Store := ⟨[], [], [], []⟩

/-- storeHttpChallenge: write the key authorization file for a token.
writeOk says whether the fs.writeFile succeeds; on failure the function
throws (flag false) leaving the store unchanged. -/
def storeHttpChallenge (writeOk : Bool) (s : Store) (token keyAuthorization : String) :
    Store × Bool :=
  if writeOk then
    ({ s with challenges := kvInsert s.challenges token keyAuthorization }, true)
  else
    (s, false)

/-- removeHttpChallenge: fs.unlink of the challenge file.  ENOENT is swallowed
(the erase of an absent key is the identity) and every other unlink error is
logged without rethrowing, so the function is total and never fails. -/
def removeHttpChallenge (s : Store) (token : String) : Store :=
  { s with challenges := kvErase s.challenges token }

/-- retrieveHttpChallenge: read the key authorization for a token, null when
the file is absent (and on read errors, which the code maps to null too). -/
def retrieveHttpChallenge (s : Store) (token : String) : Option String :=
  kvLookup s.challenges token

/-- storePendingOrder: writes the pending-order file keyed by (the hash of)
the order URL, then stores the paired HTTP challenge record.  If either write
fails the catch block removes the challenge file for the token and rethrows
(flag false).  Note the pending-order file itself is NOT removed in the catch
block. -/
def storePendingOrder (pendingWriteOk challengeWriteOk : Bool) (s : Store)
    (orderUrl : String) (d : PendingOrderData) : Store × Bool :=
  if pendingWriteOk then
    let s1 : Store := { s with pending := kvInsert s.pending orderUrl d }
    match storeHttpChallenge challengeWriteOk s1 d.token d.keyAuthorization with
    | (s2, true) => (s2, true)
    | (s2, false) => (removeHttpChallenge s2 d.token, false)
  else
    (removeHttpChallenge s d.token, false)

/-- retrievePendingOrder: read the pending-order file, null when absent or on
read errors. -/
def retrievePendingOrder (s : Store) (orderUrl : String) : Option PendingOrderData :=
  kvLookup s.pending orderUrl

/-- removePendingOrder: reads the token out of the pending file, unlinks the
pending file, then removes the challenge file for that token.  A missing
pending file (ENOENT on read and unlink) makes the whole call a no-op; all
errors are logged, never rethrown, so the function is total. -/
def removePendingOrder (s : Store) (orderUrl : String) : Store :=
  match kvLookup s.pending orderUrl with
  | some d => removeHttpChallenge { s with pending := kvErase s.pending orderUrl } d.token
  | none => s

/-- storeCertificate: overwrite the per-domain certificate, key and config
files. -/
def storeCertificate (s : Store) (domain certificatePem privateKeyPem : String)
    (config : CertificateConfig) : Store :=
  { s with
    certs := kvInsert s.certs domain ⟨certificatePem, privateKeyPem⟩,
    configs := kvInsert s.configs domain config }

/-- retrieveCertificateConfig: read the per-domain config, null when absent. -/
def retrieveCertificateConfig (s : Store) (domain : String) : Option CertificateConfig :=
  kvLookup s.configs domain

/-- Does the character list ns occur at the very start of hs. -/
def charsStartWith : List Char → List Char → Bool
  | [], _ => true
  | _ :: _, [] => false
  | a :: as, b :: bs => a = b && charsStartWith as bs

/-- Does the character list ns occur anywhere inside hs. -/
def charsContain (hs ns : List Char) : Bool :=
  match hs with
  | [] => charsStartWith ns []
  | _ :: t => charsStartWith ns hs || charsContain t ns

/-- JavaScript String.prototype.includes. -/
def strIncludes (hay needle : String) : Bool :=
  charsContain hay.data needle.data

/-- One character of the domain regex class [a-zA-Z0-9.-]. -/
def isDomainChar (c : Char) : Bool :=
  c.isAlpha || c.isDigit || c = '.' || c = '-'

/-- The anchored domain regex of the generate route:
one or more [a-zA-Z0-9.-], a literal dot, then two or more letters.  A match
exists iff some split of the string has that shape. -/
def validDomain (s : String) : Bool :=
  let cs := s.data
  (List.range cs.length).any fun i =>
    decide (0 < i) && (cs.take i).all isDomainChar &&
      (match cs.drop i with
       | '.' :: suffixChars => decide (2 ≤ suffixChars.length) && suffixChars.all Char.isAlpha
       | _ => false)

/-- The acme-challenge token regex: ^[a-zA-Z0-9_-]+$ . -/
def tokenWellFormed (t : String) : Bool :=
  decide (t.data ≠ []) && t.data.all (fun c => c.isAlpha || c.isDigit || c = '_' || c = '-')

/-- The provider identifiers with a case in the challengeCreateDns01 switch. -/
def supportedDnsProvider (p : String) : Bool :=
  p = "cloudflare" || p = "route53" || p = "godaddy"

/-- Observable effects of a request at the boundary to the ACME server and the
DNS-provider adapters (the adapters themselves are external collaborators; an
event records that the corresponding call site was reached). -/
inductive GenEvent
  | orderCreated (orderUrl : String)
  | txtCreated (provider recordName value : String)
  | txtRemoveAttempted (provider recordName : String)
  | validateRequested (challengeUrl : String)
  | orderFinalized
  | pendingStored (orderUrl : String)
deriving DecidableEq

/-- An ACME challenge as seen through the client library. -/
structure AcmeChallenge where
  ctype : String
  cstatus : String
  url : String
  token : String
deriving DecidableEq

/-- An ACME authorization: the identifier (domain) and its challenge list. -/
structure AcmeAuth where
  identifier : String
  challenges : List AcmeChallenge
deriving DecidableEq

/-- The environment a generate/renew request runs in: everything the external
ACME client and crypto helpers produce, plus whether the fallible steps
succeed.  validationOk models whether client.waitForValidStatus resolves
(false: it rejects with message validationErrMsg).  pendingWriteOk and
challengeWriteOk are the write outcomes inside storePendingOrder. -/
structure GenEnv where
  orderUrl : String
  auths : List AcmeAuth
  keyAuthorization : String
  privateKeyPem : String
  csrPem : String
  validationOk : Bool
  validationErrMsg : String
  certificatePem : String
  expiresAt : String
  expiresAtDisplay : String
  pendingWriteOk : Bool
  challengeWriteOk : Bool

/-- The issued-certificate JSON payload (services/cert-magic.ts Certificate). -/
structure CertificatePayload where
  status : String
  domain : String
  certificatePem : String
  privateKeyPem : String
  challengeType : String
  expiresAt : String
  message : String
deriving DecidableEq

/-- The http-01-pending JSON payload (HttpChallengePending). -/
structure PendingPayload where
  status : String
  domain : String
  token : String
  keyAuthorization : String
  challengeUrl : String
  orderUrl : String
  message : String
deriving DecidableEq

/-- A JSON response body of the generate / renew / finalize routes. -/
inductive ApiBody
  | issued (c : CertificatePayload)
  | pending (p : PendingPayload)
  | err (e : String)
deriving DecidableEq

/-- Result of one request: HTTP status code, body, resulting store state and
the boundary events that occurred, in order. -/
structure GenResult where
  code : Nat
  body : ApiBody
  store : Store
  events : List GenEvent
deriving DecidableEq

/-- challengeCreateDns01 (lib/acme-client.ts): dispatch on the provider.
A supported provider reaches its adapter call site (stubbed per provider)
and the 30-second propagation wait; an unsupported provider throws before
any adapter call.  Returns the adapter-boundary events, or the thrown
message. -/
def challengeCreateDns01 (identifier keyAuthorization : String) (dc : DnsConfig) :
    Except String (List GenEvent) :=
  if supportedDnsProvider dc.provider then
    Except.ok [GenEvent.txtCreated dc.provider ("_acme-challenge." ++ identifier) keyAuthorization]
  else
    Except.error ("Unsupported DNS provider: " ++ dc.provider)

/-- challengeRemoveDns01: dispatch on the provider; never throws (the default
case only logs).  Returns the adapter-boundary events. -/
def challengeRemoveDns01 (identifier : String) (dc : DnsConfig) : List GenEvent :=
  if supportedDnsProvider dc.provider then
    [GenEvent.txtRemoveAttempted dc.provider ("_acme-challenge." ++ identifier)]
  else
    []

/-- The error-message refinement in the generate route catch handler (the
modelled throws are plain Errors: no HTTP response attached, no error code). -/
def genErrMessage (m : String) : String :=
  if strIncludes m "Verify error" || strIncludes m "challenge status was not valid" then
    "ACME challenge verification failed. Check DNS setup. Details: " ++ m
  else m

/-- The generate route catch handler: for an http-01 request with an order
already created it removes the stored pending state, then responds 500. -/
def genCatch (challengeType : String) (orderStarted : Bool) (orderUrl : String)
    (evs : List GenEvent) (s : Store) (m : String) : GenResult :=
  let s1 := if challengeType = "http-01" && orderStarted then removePendingOrder s orderUrl else s
  { code := 500, body := ApiBody.err (genErrMessage m), store := s1, events := evs }

/-- Intermediate outcome of a challenge-type branch: a finished response, or a
thrown error (message, events so far, store so far) for the catch handler. -/
inductive BranchOut
  | done (r : GenResult)
  | thrown (m : String) (evs : List GenEvent) (s : Store)

/-- The DNS-01 branch of the generate route (route.ts lines 82-143): create
the TXT record via the provider adapter when the challenge is still pending,
wait, ask the ACME server to validate and wait for the result, clean up the
TXT record, then finalize, download, store and respond.  When the challenge
is not pending, creation and validation are skipped.  Note that the TXT
cleanup call site is reached only when validation resolves: a rejection
jumps to the catch handler with no cleanup. -/
def generateDns01 (env : GenEnv) (s : Store) (domain : String) (dc : DnsConfig)
    (auth : AcmeAuth) (chall : AcmeChallenge) (evs0 : List GenEvent) : BranchOut :=
  let issue : List GenEvent → BranchOut := fun evs =>
    let s1 := storeCertificate s domain env.certificatePem env.privateKeyPem
      ⟨domain, "dns-01", some dc⟩
    BranchOut.done
      { code := 200,
        body := ApiBody.issued
          ⟨"issued", domain, env.certificatePem, env.privateKeyPem, "dns-01", env.expiresAt,
            "Certificate generated successfully for " ++ domain ++ " via automated DNS-01."⟩,
        store := s1,
        events := evs ++ [GenEvent.orderFinalized] }
  if chall.cstatus = "pending" then
    match challengeCreateDns01 auth.identifier env.keyAuthorization dc with
    | Except.error m => BranchOut.thrown m evs0 s
    | Except.ok createEvs =>
      let evs1 := evs0 ++ createEvs ++ [GenEvent.validateRequested chall.url]
      if env.validationOk then
        issue (evs1 ++ challengeRemoveDns01 auth.identifier dc)
      else
        BranchOut.thrown env.validationErrMsg evs1 s
  else
    issue evs0

/-- The HTTP-01 branch of the generate route (route.ts lines 145-175): store
the pending order together with its challenge response and answer with the
pending-challenge descriptor; the ACME server is not asked to validate and
the order is not finalized. -/
def generateHttp01 (env : GenEnv) (s : Store) (domain : String)
    (chall : AcmeChallenge) (evs0 : List GenEvent) : BranchOut :=
  match storePendingOrder env.pendingWriteOk env.challengeWriteOk s env.orderUrl
      ⟨domain, "http-01", chall.url, chall.token, env.keyAuthorization,
        env.privateKeyPem, env.csrPem⟩ with
  | (s1, true) =>
    BranchOut.done
      { code := 200,
        body := ApiBody.pending
          ⟨"http-01-pending", domain, chall.token, env.keyAuthorization, chall.url,
            env.orderUrl,
            "HTTP-01 challenge initiated. Please create the file \x27/.well-known/acme-challenge/"
              ++ chall.token ++ "\x27 on your server for http://" ++ domain
              ++ " with the provided content, then click \x27Verify\x27."⟩,
        store := s1,
        events := evs0 ++ [GenEvent.pendingStored env.orderUrl] }
  | (s1, false) => BranchOut.thrown "Could not store pending order state." evs0 s1

/-- The generate-certificate route (app/api/generate-certificate/route.ts):
input validation, CSR generation, order creation, authorization fetch and
challenge selection, then dispatch to the DNS-01 or HTTP-01 branch; thrown
errors land in the catch handler. -/
def generatePOST (env : GenEnv) (s : Store) (domain challengeType : String)
    (dnsConfig : Option DnsConfig) : GenResult :=
  if validDomain domain = false then
    { code := 400, body := ApiBody.err "Invalid domain name format.", store := s, events := [] }
  else if (challengeType = "dns-01" || challengeType = "http-01") = false then
    { code := 400, body := ApiBody.err "Invalid challengeType.", store := s, events := [] }
  else if challengeType = "dns-01" &&
      (match dnsConfig with
       | none => true
       | some dc => dc.provider = "" || dc.apiKey = "") then
    { code := 400,
      body := ApiBody.err "Missing dnsConfig (provider and apiKey) for DNS-01 challenge.",
      store := s, events := [] }
  else
    let evs0 := [GenEvent.orderCreated env.orderUrl]
    let out : BranchOut :=
      match env.auths with
      | [] => BranchOut.thrown "No authorizations found for the order." evs0 s
      | auth :: _ =>
        match auth.challenges.find? (fun c => c.ctype = challengeType) with
        | none =>
          BranchOut.thrown
            ("Could not find challenge type " ++ challengeType ++ " for domain " ++ domain)
            evs0 s
        | some chall =>
          if challengeType = "dns-01" then
            match dnsConfig with
            | none => BranchOut.thrown "Internal error: dnsConfig missing for DNS-01." evs0 s
            | some dc => generateDns01 env s domain dc auth chall evs0
          else
            generateHttp01 env s domain chall evs0
    match out with
    | BranchOut.done r => r
    | BranchOut.thrown m evs s1 => genCatch challengeType true env.orderUrl evs s1 m

/-- The error-message refinement in the renew route catch handler. -/
def renewErrMessage (m : String) : String :=
  if strIncludes m "Verify error" || strIncludes m "challenge status was not valid" then
    "ACME challenge verification failed during renewal. Details: " ++ m
  else m

/-- The renew route catch handler: like the generate one, but keyed on the
challenge type read from the stored configuration. -/
def renewCatch (challengeType : String) (orderStarted : Bool) (orderUrl : String)
    (evs : List GenEvent) (s : Store) (m : String) : GenResult :=
  let s1 := if challengeType = "http-01" && orderStarted then removePendingOrder s orderUrl else s
  { code := 500, body := ApiBody.err (renewErrMessage m), store := s1, events := evs }

/-- The DNS-01 branch of the renew route: identical control flow to the
generate one, with renewal wording and the stored DNS configuration written
back unchanged. -/
def renewDns01 (env : GenEnv) (s : Store) (domain : String) (dc : DnsConfig)
    (auth : AcmeAuth) (chall : AcmeChallenge) (evs0 : List GenEvent) : BranchOut :=
  let issue : List GenEvent → BranchOut := fun evs =>
    let s1 := storeCertificate s domain env.certificatePem env.privateKeyPem
      ⟨domain, "dns-01", some dc⟩
    BranchOut.done
      { code := 200,
        body := ApiBody.issued
          ⟨"issued", domain, env.certificatePem, env.privateKeyPem, "dns-01", env.expiresAt,
            "Certificate for " ++ domain ++ " renewed successfully via automated DNS-01. Expires: "
              ++ env.expiresAtDisplay ++ "."⟩,
        store := s1,
        events := evs ++ [GenEvent.orderFinalized] }
  if chall.cstatus = "pending" then
    match challengeCreateDns01 auth.identifier env.keyAuthorization dc with
    | Except.error m => BranchOut.thrown m evs0 s
    | Except.ok createEvs =>
      let evs1 := evs0 ++ createEvs ++ [GenEvent.validateRequested chall.url]
      if env.validationOk then
        issue (evs1 ++ challengeRemoveDns01 auth.identifier dc)
      else
        BranchOut.thrown env.validationErrMsg evs1 s
  else
    issue evs0

/-- The HTTP-01 branch of the renew route: store a fresh pending order (new
key and CSR) and answer with the pending-challenge descriptor. -/
def renewHttp01 (env : GenEnv) (s : Store) (domain : String)
    (chall : AcmeChallenge) (evs0 : List GenEvent) : BranchOut :=
  match storePendingOrder env.pendingWriteOk env.challengeWriteOk s env.orderUrl
      ⟨domain, "http-01", chall.url, chall.token, env.keyAuthorization,
        env.privateKeyPem, env.csrPem⟩ with
  | (s1, true) =>
    BranchOut.done
      { code := 200,
        body := ApiBody.pending
          ⟨"http-01-pending", domain, chall.token, env.keyAuthorization, chall.url,
            env.orderUrl,
            "HTTP-01 challenge required for renewal. Please ensure the file \x27/.well-known/acme-challenge/"
              ++ chall.token ++ "\x27 is accessible on http://" ++ domain
              ++ " with the provided content, then click \x27Verify\x27."⟩,
        store := s1,
        events := evs0 ++ [GenEvent.pendingStored env.orderUrl] }
  | (s1, false) => BranchOut.thrown "Could not store pending order state." evs0 s1

/-- The renew-certificate route (the configuration-driven handler): look up
the stored per-domain configuration, re-run issuance with exactly the stored
challenge type, and for DNS-01 with the stored credentials (failing when the
stored API key is absent). -/
def renewPOST (env : GenEnv) (s : Store) (domain : String) : GenResult :=
  if domain = "" then
    { code := 400, body := ApiBody.err "Missing domain", store := s, events := [] }
  else
    match retrieveCertificateConfig s domain with
    | none =>
      { code := 404, body := ApiBody.err ("Cannot renew " ++ domain ++ ": Configuration not found."),
        store := s, events := [] }
    | some config =>
      let challengeType := config.challengeType
      if challengeType = "dns-01" &&
          (match config.dnsConfig with
           | none => true
           | some dc => dc.apiKey = "") then
        { code := 500,
          body := ApiBody.err
            ("Cannot renew " ++ domain ++ " via DNS-01: Stored configuration is missing the API key."),
          store := s, events := [] }
      else
        let evs0 := [GenEvent.orderCreated env.orderUrl]
        let out : BranchOut :=
          match env.auths with
          | [] => BranchOut.thrown "No authorizations found." evs0 s
          | auth :: _ =>
            match auth.challenges.find? (fun c => c.ctype = challengeType) with
            | none =>
              BranchOut.thrown ("Could not find challenge type " ++ challengeType) evs0 s
            | some chall =>
              if challengeType = "dns-01" then
                match config.dnsConfig with
                | none =>
                  BranchOut.thrown "Internal error: dnsConfig missing for DNS-01 renewal." evs0 s
                | some dc => renewDns01 env s domain dc auth chall evs0
              else
                renewHttp01 env s domain chall evs0
        match out with
        | BranchOut.done r => r
        | BranchOut.thrown m evs s1 => renewCatch challengeType true env.orderUrl evs s1 m

/-- What the external ACME client does when the verify route asks it to
complete the challenge and waits for a terminal status: it either rejects
(transport or protocol error carrying a message) or resolves with the
challenge status it observed. -/
inductive AcmeVerifyResult
  | throws (m : String)
  | status (st : String)

/-- The JSON body of a verify-http-challenge response; each field is present
in some branches and absent in others. -/
structure VerifyBody where
  vstatus : Option String
  message : Option String
  error : Option String
deriving DecidableEq

/-- Result of a verify-http-challenge request: status code, body and the
store it leaves behind. -/
structure VerifyResult where
  code : Nat
  body : VerifyBody
  store : Store
deriving DecidableEq

/-- The error-message refinement in the verify route catch handler. -/
def verifyErrMessage (m : String) : String :=
  if strIncludes m "Verify error" || strIncludes m "challenge status was not valid" then
    "ACME challenge verification failed. Check server setup. Details: " ++ m
  else if strIncludes m "rateLimited" then
    "Verification failed due to rate limiting. Please wait and try again later."
  else m

/-- The verify-http-challenge route: validate the body, look up the pending
order and cross-check its challenge URL and token, ask the ACME server to
validate and wait.  A terminal valid status answers 200 leaving the pending
state in place; any other terminal status answers 400 with the retryable
invalid outcome; a rejection lands in the catch handler (500).  No branch
writes to the store. -/
def verifyPOST (outcome : AcmeVerifyResult) (s : Store)
    (challengeUrl orderUrl domain : String) : VerifyResult :=
  if challengeUrl = "" || orderUrl = "" || domain = "" then
    ⟨400, ⟨none, none, some "Missing challengeUrl, orderUrl, or domain"⟩, s⟩
  else
    match retrievePendingOrder s orderUrl with
    | none => ⟨404, ⟨none, none, some "Pending order details not found or challenge URL mismatch."⟩, s⟩
    | some po =>
      if (po.challengeUrl = challengeUrl) = false then
        ⟨404, ⟨none, none, some "Pending order details not found or challenge URL mismatch."⟩, s⟩
      else if strIncludes po.challengeUrl po.token = false then
        ⟨500, ⟨none, none, some "Internal inconsistency in stored challenge data."⟩, s⟩
      else
        match outcome with
        | AcmeVerifyResult.throws m =>
          ⟨500, ⟨some "invalid", none, some (verifyErrMessage m)⟩, s⟩
        | AcmeVerifyResult.status st =>
          if st = "valid" then
            ⟨200,
              ⟨some "valid",
                some ("Challenge successfully verified for " ++ domain ++ ". Ready to finalize."),
                none⟩, s⟩
          else
            ⟨400,
              ⟨some "invalid",
                some ("Challenge verification failed. Status: " ++ st
                  ++ ". Please check the file and try again."),
                none⟩, s⟩

/-- Result of a GET on acme-challenge/token: status code, plain-text body and
the explicitly set response headers. -/
structure HttpGetResult where
  code : Nat
  body : String
  headers : List (String × String)
deriving DecidableEq

/-- The no-cache headers the challenge-serving endpoint sets on success. -/
def noCacheHeaders : List (String × String) :=
  [("Content-Type", "text/plain"),
   ("Cache-Control", "no-store, no-cache, must-revalidate, proxy-revalidate"),
   ("Pragma", "no-cache"),
   ("Expires", "0"),
   ("Surrogate-Control", "no-store")]

/-- The acme-challenge/token GET route: reject malformed tokens before
touching the store; otherwise serve the stored key authorization verbatim as
text/plain with no-cache headers, or 404 when nothing (or an empty string,
which is falsy) is stored. -/
def acmeChallengeGET (s : Store) (token : String) : HttpGetResult :=
  if tokenWellFormed token then
    match retrieveHttpChallenge s token with
    | none => ⟨404, "Challenge not found", []⟩
    | some ka =>
      if ka = "" then ⟨404, "Challenge not found", []⟩
      else ⟨200, ka, noCacheHeaders⟩
  else
    ⟨400, "Invalid token format", []⟩

/-- The environment of a finalize request: the status the ACME server reports
for the re-fetched order, and the certificate it returns once finalized. -/
structure FinalizeEnv where
  orderStatus : String
  certificatePem : String
  expiresAt : String

/-- The finalize-certificate route: validate the body, load the pending
order, check the domain matches, re-fetch the order and require the ready
state (removing the pending state when the order is invalid), then finalize
with the stored CSR, download and store the certificate, delete the pending
state and respond with the issued payload. -/
def finalizePOST (env : FinalizeEnv) (s : Store) (orderUrl domain : String) : GenResult :=
  if orderUrl = "" || domain = "" then
    { code := 400, body := ApiBody.err "Missing orderUrl or domain", store := s, events := [] }
  else
    match retrievePendingOrder s orderUrl with
    | none =>
      { code := 404,
        body := ApiBody.err
          "Pending order details not found. Verification might have expired or failed previously.",
        store := s, events := [] }
    | some po =>
      if (po.domain = domain) = false then
        { code := 400, body := ApiBody.err "Domain mismatch in pending order data.",
          store := s, events := [] }
      else if (env.orderStatus = "ready") = false then
        let s1 := if env.orderStatus = "invalid" then removePendingOrder s orderUrl else s
        { code := 400,
          body := ApiBody.err
            ("Cannot finalize order. Status is \x27" ++ env.orderStatus ++ "\x27, expected \x27ready\x27."),
          store := s1, events := [] }
      else
        let s1 := storeCertificate s domain env.certificatePem po.privateKeyPem
          ⟨domain, "http-01", none⟩
        let s2 := removePendingOrder s1 orderUrl
        { code := 200,
          body := ApiBody.issued
            ⟨"issued", domain, env.certificatePem, po.privateKeyPem, "http-01", env.expiresAt,
              "Certificate issued successfully for " ++ domain ++ " via manual HTTP-01."⟩,
          store := s2, events := [GenEvent.orderFinalized] }

/-! Helper lemmas shared by several results. -/

theorem removeHttpChallenge_absent (s : Store) (t : String)
    (h : kvLookup s.challenges t = none) : removeHttpChallenge s t = s := by
  simp only [removeHttpChallenge, kvErase_of_lookup_none s.challenges t h]

theorem removePendingOrder_absent (s : Store) (u : String)
    (h : kvLookup s.pending u = none) : removePendingOrder s u = s := by
  simp [removePendingOrder, h]

theorem removePendingOrder_pending_lookup (s : Store) (u : String) :
    kvLookup (removePendingOrder s u).pending u = none ∨ removePendingOrder s u = s := by
  cases h : kvLookup s.pending u with
  | none => exact Or.inr (removePendingOrder_absent s u h)
  | some d =>
    left
    simp [removePendingOrder, h, removeHttpChallenge, kvLookup_erase_self]

theorem removePendingOrder_certs (s : Store) (u : String) :
    (removePendingOrder s u).certs = s.certs := by
  cases h : kvLookup s.pending u <;> simp [removePendingOrder, h, removeHttpChallenge]

/-- Claim C1 (amended): storePendingOrder creates the PendingOrderRecord and
its ChallengeResponseRecord together on success; on any partial failure it
removes the challenge record for the token (no orphaned challenge-servable
secret) and rejects — but the pending record written first is not removed, so
a failed challenge write leaves a PendingOrderRecord without its paired
ChallengeResponseRecord.  removePendingOrder deletes both together, and is a
no-op when the pending record is absent. -/
theorem C1_pending_challenge_pairing (s : Store) (u : String) (d : PendingOrderData)
    (pOk cOk : Bool) :
    ((pOk && cOk) = true →
      kvLookup (storePendingOrder pOk cOk s u d).1.pending u = some d ∧
      kvLookup (storePendingOrder pOk cOk s u d).1.challenges d.token = some d.keyAuthorization ∧
      (storePendingOrder pOk cOk s u d).2 = true) ∧
    ((pOk && cOk) = false →
      kvLookup (storePendingOrder pOk cOk s u d).1.challenges d.token = none ∧
      (storePendingOrder pOk cOk s u d).2 = false) ∧
    (∀ d0, kvLookup s.pending u = some d0 →
      kvLookup (removePendingOrder s u).pending u = none ∧
      kvLookup (removePendingOrder s u).challenges d0.token = none) ∧
    (kvLookup s.pending u = none → removePendingOrder s u = s) := by
  refine ⟨?_, ?_, ?_, removePendingOrder_absent s u⟩
  · intro h
    rcases Bool.and_eq_true_iff.mp h with ⟨hp, hc⟩
    subst hp; subst hc
    refine ⟨?_, ?_, rfl⟩
    · simp [storePendingOrder, storeHttpChallenge, kvInsert, kvLookup, kvLookup_insert_self]
    · simp [storePendingOrder, storeHttpChallenge, kvLookup_insert_self]
  · intro h
    cases pOk with
    | false =>
      refine ⟨?_, rfl⟩
      simp [storePendingOrder, removeHttpChallenge, kvLookup_erase_self]
    | true =>
      cases cOk with
      | false =>
        refine ⟨?_, rfl⟩
        simp [storePendingOrder, storeHttpChallenge, removeHttpChallenge, kvLookup_erase_self]
      | true => simp at h
  · intro d0 h
    constructor
    · simp [removePendingOrder, h, removeHttpChallenge, kvLookup_erase_self]
    · simp [removePendingOrder, h, removeHttpChallenge, kvLookup_erase_self]

/-- Witness for C1 at concrete inputs: a fully successful store creates both
records, a failed challenge write leaves no challenge record, and removal of
a present order deletes both records. -/
theorem C1_pending_challenge_pairing_witness :
    kvLookup (storePendingOrder true true emptyStore "u1"
      ⟨"example.org", "http-01", "cu1", "tok1", "ka1", "PK", "CSR"⟩).1.pending "u1" =
      some ⟨"example.org", "http-01", "cu1", "tok1", "ka1", "PK", "CSR"⟩ ∧
    kvLookup (storePendingOrder true false emptyStore "u1"
      ⟨"example.org", "http-01", "cu1", "tok1", "ka1", "PK", "CSR"⟩).1.challenges "tok1" = none := by
  constructor
  · exact ((C1_pending_challenge_pairing emptyStore "u1"
      ⟨"example.org", "http-01", "cu1", "tok1", "ka1", "PK", "CSR"⟩ true true).1 (by decide)).1
  · exact ((C1_pending_challenge_pairing emptyStore "u1"
      ⟨"example.org", "http-01", "cu1", "tok1", "ka1", "PK", "CSR"⟩ true false).2.1 (by decide)).1

/-- Counterexample to C1 as stated: when the pending-order write succeeds and
the paired challenge write fails, storePendingOrder leaves a
PendingOrderRecord in the store whose token has no ChallengeResponseRecord —
the records do not exist if and only if each other. -/
theorem C1_counterexample :
    kvLookup (storePendingOrder true false emptyStore "https://ca.test/order/1"
      ⟨"example.org", "http-01", "https://ca.test/chall/1", "tok1", "ka1", "PK", "CSR"⟩).1.pending
      "https://ca.test/order/1" =
      some ⟨"example.org", "http-01", "https://ca.test/chall/1", "tok1", "ka1", "PK", "CSR"⟩ ∧
    kvLookup (storePendingOrder true false emptyStore "https://ca.test/order/1"
      ⟨"example.org", "http-01", "https://ca.test/chall/1", "tok1", "ka1", "PK", "CSR"⟩).1.challenges
      "tok1" = none := by
  decide

/-- Claim C10: removeHttpChallenge and removePendingOrder swallow the
missing-file case: removing an absent record is the identity (and, the
functions being total, no error surfaces), and removing twice equals
removing once. -/
theorem C10_removal_idempotent (s : Store) (u t : String) :
    (kvLookup s.challenges t = none → removeHttpChallenge s t = s) ∧
    removeHttpChallenge (removeHttpChallenge s t) t = removeHttpChallenge s t ∧
    (kvLookup s.pending u = none → removePendingOrder s u = s) ∧
    removePendingOrder (removePendingOrder s u) u = removePendingOrder s u := by
  refine ⟨removeHttpChallenge_absent s t, ?_, removePendingOrder_absent s u, ?_⟩
  · simp [removeHttpChallenge, kvErase_idem]
  · rcases removePendingOrder_pending_lookup s u with h | h
    · exact removePendingOrder_absent _ u h
    · rw [h]; exact h

/-- Witness for C10 at concrete inputs. -/
theorem C10_removal_idempotent_witness :
    removeHttpChallenge emptyStore "tokX" = emptyStore ∧
    removePendingOrder emptyStore "uX" = emptyStore := by
  constructor
  · exact (C10_removal_idempotent emptyStore "uX" "tokX").1 rfl
  · exact (C10_removal_idempotent emptyStore "uX" "tokX").2.2.1 rfl

/-- Claim C8 (amended): a well-formed token with a nonempty stored key
authorization is answered 200 with exactly that string and the no-cache
headers; a well-formed token whose stored value is the empty string is
treated as not found (the handler tests JavaScript truthiness, and an empty
string is falsy) and answered 404, as is a well-formed token with no stored
value; a malformed token is answered 400 and the response is the same
whatever the store holds. -/
theorem C8_challenge_serving (s : Store) (t ka : String) :
    (tokenWellFormed t = true → retrieveHttpChallenge s t = some ka → ka ≠ "" →
      acmeChallengeGET s t = ⟨200, ka, noCacheHeaders⟩) ∧
    (tokenWellFormed t = true → retrieveHttpChallenge s t = some "" →
      (acmeChallengeGET s t).code = 404) ∧
    (tokenWellFormed t = true → retrieveHttpChallenge s t = none →
      (acmeChallengeGET s t).code = 404) ∧
    (tokenWellFormed t = false →
      acmeChallengeGET s t = ⟨400, "Invalid token format", []⟩ ∧
      ∀ s2, acmeChallengeGET s2 t = acmeChallengeGET s t) := by
  refine ⟨?_, ?_, ?_, ?_⟩
  · intro hw hka hne
    simp [acmeChallengeGET, hw, hka, hne]
  · intro hw hka
    simp [acmeChallengeGET, hw, hka]
  · intro hw hka
    simp [acmeChallengeGET, hw, hka]
  · intro hw
    constructor
    · simp [acmeChallengeGET, hw]
    · intro s2
      simp [acmeChallengeGET, hw]

/-- Witness for C8 at concrete inputs: a stored nonempty key authorization is
served verbatim, an unknown token is 404, a malformed token is 400. -/
theorem C8_challenge_serving_witness :
    acmeChallengeGET ⟨[], [("tokW", "kaW.acct")], [], []⟩ "tokW" = ⟨200, "kaW.acct", noCacheHeaders⟩ ∧
    (acmeChallengeGET ⟨[], [("tokW", "kaW.acct")], [], []⟩ "other").code = 404 ∧
    acmeChallengeGET ⟨[], [("tokW", "kaW.acct")], [], []⟩ "bad token" = ⟨400, "Invalid token format", []⟩ := by
  refine ⟨?_, ?_, ?_⟩
  · exact (C8_challenge_serving ⟨[], [("tokW", "kaW.acct")], [], []⟩ "tokW" "kaW.acct").1
      (by decide) (by decide) (by decide)
  · exact (C8_challenge_serving ⟨[], [("tokW", "kaW.acct")], [], []⟩ "other" "kaW.acct").2.2.1
      (by decide) (by decide)
  · exact ((C8_challenge_serving ⟨[], [("tokW", "kaW.acct")], [], []⟩ "bad token" "kaW.acct").2.2.2
      (by decide)).1

/-- Counterexample to C8 as stated: the token tok8 has a key authorization
stored (the empty string), yet the endpoint answers 404, not 200 with the
stored body. -/
theorem C8_counterexample :
    retrieveHttpChallenge ⟨[], [("tok8", "")], [], []⟩ "tok8" = some "" ∧
    (acmeChallengeGET ⟨[], [("tok8", "")], [], []⟩ "tok8").code = 404 := by
  decide

/-- Claim C2: a finalize call for an existing, domain-matching pending order
made while the re-fetched ACME order is in any state other than ready fails
with 400, an error body reporting the actual status, no finalization event
and no change to the stored certificate of the domain. -/
theorem C2_finalize_requires_ready (env : FinalizeEnv) (s : Store)
    (orderUrl domain : String) (po : PendingOrderData)
    (h1 : orderUrl ≠ "") (h2 : domain ≠ "")
    (hpo : retrievePendingOrder s orderUrl = some po)
    (hdom : po.domain = domain)
    (hst : env.orderStatus ≠ "ready") :
    (finalizePOST env s orderUrl domain).code = 400 ∧
    (finalizePOST env s orderUrl domain).body =
      ApiBody.err ("Cannot finalize order. Status is \x27" ++ env.orderStatus
        ++ "\x27, expected \x27ready\x27.") ∧
    (finalizePOST env s orderUrl domain).events = [] ∧
    kvLookup (finalizePOST env s orderUrl domain).store.certs domain =
      kvLookup s.certs domain := by
  have hbody : finalizePOST env s orderUrl domain =
      { code := 400,
        body := ApiBody.err ("Cannot finalize order. Status is \x27" ++ env.orderStatus
          ++ "\x27, expected \x27ready\x27."),
        store := if env.orderStatus = "invalid" then removePendingOrder s orderUrl else s,
        events := [] } := by
    simp [finalizePOST, h1, h2, hpo, hdom, hst]
  refine ⟨by rw [hbody], by rw [hbody], by rw [hbody], ?_⟩
  rw [hbody]
  by_cases hv : env.orderStatus = "invalid"
  · simp [hv, removePendingOrder_certs]
  · simp [hv]

/-- Witness for C2 at concrete inputs: order status processing. -/
theorem C2_finalize_requires_ready_witness :
    (finalizePOST ⟨"processing", "CERT", "2026-01-01"⟩
      ⟨[("uF", ⟨"example.org", "http-01", "cuF", "tokF", "kaF", "PK", "CSR"⟩)], [], [], []⟩
      "uF" "example.org").code = 400 := by
  exact (C2_finalize_requires_ready ⟨"processing", "CERT", "2026-01-01"⟩
    ⟨[("uF", ⟨"example.org", "http-01", "cuF", "tokF", "kaF", "PK", "CSR"⟩)], [], [], []⟩
    "uF" "example.org" ⟨"example.org", "http-01", "cuF", "tokF", "kaF", "PK", "CSR"⟩
    (by decide) (by decide) (by decide) (by decide) (by decide)).1

/-- Claim C9: a verify-http-challenge call that completes with status valid
leaves the whole store exactly as it was — in particular the pending order
and its challenge record are still retrievable afterwards. -/
theorem C9_verify_preserves_pending (s : Store) (challengeUrl orderUrl domain : String)
    (po : PendingOrderData)
    (h1 : challengeUrl ≠ "") (h2 : orderUrl ≠ "") (h3 : domain ≠ "")
    (hpo : retrievePendingOrder s orderUrl = some po)
    (hcu : po.challengeUrl = challengeUrl)
    (htok : strIncludes po.challengeUrl po.token = true) :
    (verifyPOST (AcmeVerifyResult.status "valid") s challengeUrl orderUrl domain).code = 200 ∧
    (verifyPOST (AcmeVerifyResult.status "valid") s challengeUrl orderUrl domain).body.vstatus =
      some "valid" ∧
    (verifyPOST (AcmeVerifyResult.status "valid") s challengeUrl orderUrl domain).store = s ∧
    retrievePendingOrder
      (verifyPOST (AcmeVerifyResult.status "valid") s challengeUrl orderUrl domain).store orderUrl =
      some po ∧
    retrieveHttpChallenge
      (verifyPOST (AcmeVerifyResult.status "valid") s challengeUrl orderUrl domain).store po.token =
      retrieveHttpChallenge s po.token := by
  have hres : verifyPOST (AcmeVerifyResult.status "valid") s challengeUrl orderUrl domain =
      ⟨200,
        ⟨some "valid",
          some ("Challenge successfully verified for " ++ domain ++ ". Ready to finalize."),
          none⟩, s⟩ := by
    have htok2 : strIncludes challengeUrl po.token = true := hcu ▸ htok
    simp [verifyPOST, h1, h2, h3, hpo, hcu, htok, htok2]
  rw [hres]
  exact ⟨rfl, rfl, rfl, hpo, rfl⟩

/-- Witness for C9 at concrete inputs. -/
theorem C9_verify_preserves_pending_witness :
    (verifyPOST (AcmeVerifyResult.status "valid")
      ⟨[("uV", ⟨"example.org", "http-01", "https://ca.test/chall/tokV", "tokV", "kaV", "PK", "CSR"⟩)],
        [("tokV", "kaV")], [], []⟩
      "https://ca.test/chall/tokV" "uV" "example.org").store =
      ⟨[("uV", ⟨"example.org", "http-01", "https://ca.test/chall/tokV", "tokV", "kaV", "PK", "CSR"⟩)],
        [("tokV", "kaV")], [], []⟩ := by
  exact (C9_verify_preserves_pending
    ⟨[("uV", ⟨"example.org", "http-01", "https://ca.test/chall/tokV", "tokV", "kaV", "PK", "CSR"⟩)],
      [("tokV", "kaV")], [], []⟩
    "https://ca.test/chall/tokV" "uV" "example.org"
    ⟨"example.org", "http-01", "https://ca.test/chall/tokV", "tokV", "kaV", "PK", "CSR"⟩
    (by decide) (by decide) (by decide) (by decide) (by decide) (by decide)).2.2.1

/-- Claim C3: when the ACME server reports a terminal non-valid challenge
status, verify-http-challenge answers with the non-exceptional retryable
outcome — HTTP 400, body carrying status invalid and a message, no error
field — while a rejection of the validation call (transport or server error)
lands in the catch handler and answers HTTP 500 with an error field and no
message; the two outcomes are distinct in both status code and body shape,
and neither touches the store. -/
theorem C3_verify_invalid_vs_transport (s : Store) (challengeUrl orderUrl domain : String)
    (po : PendingOrderData)
    (h1 : challengeUrl ≠ "") (h2 : orderUrl ≠ "") (h3 : domain ≠ "")
    (hpo : retrievePendingOrder s orderUrl = some po)
    (hcu : po.challengeUrl = challengeUrl)
    (htok : strIncludes po.challengeUrl po.token = true) :
    (∀ st, st ≠ "valid" →
      verifyPOST (AcmeVerifyResult.status st) s challengeUrl orderUrl domain =
        ⟨400,
          ⟨some "invalid",
            some ("Challenge verification failed. Status: " ++ st
              ++ ". Please check the file and try again."),
            none⟩, s⟩) ∧
    (∀ m,
      verifyPOST (AcmeVerifyResult.throws m) s challengeUrl orderUrl domain =
        ⟨500, ⟨some "invalid", none, some (verifyErrMessage m)⟩, s⟩) := by
  have htok2 : strIncludes challengeUrl po.token = true := hcu ▸ htok
  constructor
  · intro st hst
    simp [verifyPOST, h1, h2, h3, hpo, hcu, htok2, hst]
  · intro m
    simp [verifyPOST, h1, h2, h3, hpo, hcu, htok2]

/-- Witness for C3 at concrete inputs: a reported invalid status gives the
retryable 400, a thrown timeout gives the 500 error shape. -/
theorem C3_verify_invalid_vs_transport_witness :
    verifyPOST (AcmeVerifyResult.status "invalid")
      ⟨[("uV3", ⟨"example.org", "http-01", "https://ca.test/chall/tokV3", "tokV3", "kaV3", "PK", "CSR"⟩)],
        [], [], []⟩
      "https://ca.test/chall/tokV3" "uV3" "example.org" =
      ⟨400,
        ⟨some "invalid",
          some "Challenge verification failed. Status: invalid. Please check the file and try again.",
          none⟩,
        ⟨[("uV3", ⟨"example.org", "http-01", "https://ca.test/chall/tokV3", "tokV3", "kaV3", "PK", "CSR"⟩)],
          [], [], []⟩⟩ ∧
    verifyPOST (AcmeVerifyResult.throws "connect ETIMEDOUT")
      ⟨[("uV3", ⟨"example.org", "http-01", "https://ca.test/chall/tokV3", "tokV3", "kaV3", "PK", "CSR"⟩)],
        [], [], []⟩
      "https://ca.test/chall/tokV3" "uV3" "example.org" =
      ⟨500, ⟨some "invalid", none, some "connect ETIMEDOUT"⟩,
        ⟨[("uV3", ⟨"example.org", "http-01", "https://ca.test/chall/tokV3", "tokV3", "kaV3", "PK", "CSR"⟩)],
          [], [], []⟩⟩ := by
  constructor
  · exact ((C3_verify_invalid_vs_transport
      ⟨[("uV3", ⟨"example.org", "http-01", "https://ca.test/chall/tokV3", "tokV3", "kaV3", "PK", "CSR"⟩)],
        [], [], []⟩
      "https://ca.test/chall/tokV3" "uV3" "example.org"
      ⟨"example.org", "http-01", "https://ca.test/chall/tokV3", "tokV3", "kaV3", "PK", "CSR"⟩
      (by decide) (by decide) (by decide) (by decide) (by decide) (by decide)).1
      "invalid" (by decide))
  · have h := ((C3_verify_invalid_vs_transport
      ⟨[("uV3", ⟨"example.org", "http-01", "https://ca.test/chall/tokV3", "tokV3", "kaV3", "PK", "CSR"⟩)],
        [], [], []⟩
      "https://ca.test/chall/tokV3" "uV3" "example.org"
      ⟨"example.org", "http-01", "https://ca.test/chall/tokV3", "tokV3", "kaV3", "PK", "CSR"⟩
      (by decide) (by decide) (by decide) (by decide) (by decide) (by decide)).2
      "connect ETIMEDOUT")
    rw [h]
    decide

/-- Claim C6: a generate request with challenge type http-01 that reaches the
HTTP-01 branch stores the PendingOrderRecord keyed by the order URL with the
domain, challenge URL, token, key authorization, new private-key PEM and CSR
PEM, stores the paired ChallengeResponseRecord, and answers 200 with the
http-01-pending descriptor; the only boundary events are the order creation
and the pending store — the ACME server is not asked to validate and the
order is not finalized. -/
theorem C6_generate_http01_pending (env : GenEnv) (s : Store) (domain : String)
    (dnsConfig : Option DnsConfig) (auth : AcmeAuth) (rest : List AcmeAuth)
    (chall : AcmeChallenge)
    (hdom : validDomain domain = true)
    (hauths : env.auths = auth :: rest)
    (hfind : auth.challenges.find? (fun c => c.ctype = "http-01") = some chall)
    (hpw : env.pendingWriteOk = true) (hcw : env.challengeWriteOk = true) :
    (generatePOST env s domain "http-01" dnsConfig).code = 200 ∧
    (generatePOST env s domain "http-01" dnsConfig).body =
      ApiBody.pending
        ⟨"http-01-pending", domain, chall.token, env.keyAuthorization, chall.url, env.orderUrl,
          "HTTP-01 challenge initiated. Please create the file \x27/.well-known/acme-challenge/"
            ++ chall.token ++ "\x27 on your server for http://" ++ domain
            ++ " with the provided content, then click \x27Verify\x27."⟩ ∧
    kvLookup (generatePOST env s domain "http-01" dnsConfig).store.pending env.orderUrl =
      some ⟨domain, "http-01", chall.url, chall.token, env.keyAuthorization,
        env.privateKeyPem, env.csrPem⟩ ∧
    kvLookup (generatePOST env s domain "http-01" dnsConfig).store.challenges chall.token =
      some env.keyAuthorization ∧
    (generatePOST env s domain "http-01" dnsConfig).events =
      [GenEvent.orderCreated env.orderUrl, GenEvent.pendingStored env.orderUrl] := by
  have hres : generatePOST env s domain "http-01" dnsConfig =
      { code := 200,
        body := ApiBody.pending
          ⟨"http-01-pending", domain, chall.token, env.keyAuthorization, chall.url, env.orderUrl,
            "HTTP-01 challenge initiated. Please create the file \x27/.well-known/acme-challenge/"
              ++ chall.token ++ "\x27 on your server for http://" ++ domain
              ++ " with the provided content, then click \x27Verify\x27."⟩,
        store :=
          { s with
            pending := kvInsert s.pending env.orderUrl
              ⟨domain, "http-01", chall.url, chall.token, env.keyAuthorization,
                env.privateKeyPem, env.csrPem⟩,
            challenges := kvInsert s.challenges chall.token env.keyAuthorization },
        events := [GenEvent.orderCreated env.orderUrl, GenEvent.pendingStored env.orderUrl] } := by
    simp [generatePOST, hdom, hauths, hfind, generateHttp01, storePendingOrder,
      hpw, hcw, storeHttpChallenge]
  rw [hres]
  exact ⟨rfl, rfl, kvLookup_insert_self _ _ _, kvLookup_insert_self _ _ _, rfl⟩

/-- Witness for C6 at concrete inputs. -/
theorem C6_generate_http01_pending_witness :
    (generatePOST
      ⟨"https://ca.test/order/g", [⟨"example.org", [⟨"http-01", "pending", "https://ca.test/chall/g", "tokG"⟩]⟩],
        "kaG", "PKG", "CSRG", true, "werr", "CERT", "2026-01-01", "disp", true, true⟩
      emptyStore "example.org" "http-01" none).code = 200 ∧
    kvLookup (generatePOST
      ⟨"https://ca.test/order/g", [⟨"example.org", [⟨"http-01", "pending", "https://ca.test/chall/g", "tokG"⟩]⟩],
        "kaG", "PKG", "CSRG", true, "werr", "CERT", "2026-01-01", "disp", true, true⟩
      emptyStore "example.org" "http-01" none).store.challenges "tokG" = some "kaG" := by
  have h := C6_generate_http01_pending
    ⟨"https://ca.test/order/g", [⟨"example.org", [⟨"http-01", "pending", "https://ca.test/chall/g", "tokG"⟩]⟩],
      "kaG", "PKG", "CSRG", true, "werr", "CERT", "2026-01-01", "disp", true, true⟩
    emptyStore "example.org" none
    ⟨"example.org", [⟨"http-01", "pending", "https://ca.test/chall/g", "tokG"⟩]⟩ []
    ⟨"http-01", "pending", "https://ca.test/chall/g", "tokG"⟩
    (by decide) rfl (by decide) rfl rfl
  exact ⟨h.1, h.2.2.2.1⟩

/-- Claim C4 (amended): a generate request with challenge type dns-01 and an
unsupported provider that passes input validation (the provider identifier
and API key are nonempty, but the identifier is outside the switch) fails
with the Unsupported DNS provider error thrown by challengeCreateDns01 and
surfaced by the catch handler as a 500 — but only after the ACME order has
been created: the order-creation event has already occurred, while no
DNS-record, validation or finalization call site is reached and the store
is untouched. -/
theorem C4_unsupported_provider (env : GenEnv) (s : Store) (domain : String)
    (dc : DnsConfig) (auth : AcmeAuth) (rest : List AcmeAuth) (chall : AcmeChallenge)
    (hdom : validDomain domain = true)
    (hp : dc.provider ≠ "") (hk : dc.apiKey ≠ "")
    (hsup : supportedDnsProvider dc.provider = false)
    (hauths : env.auths = auth :: rest)
    (hfind : auth.challenges.find? (fun c => c.ctype = "dns-01") = some chall)
    (hpend : chall.cstatus = "pending") :
    (generatePOST env s domain "dns-01" (some dc)).code = 500 ∧
    (generatePOST env s domain "dns-01" (some dc)).body =
      ApiBody.err (genErrMessage ("Unsupported DNS provider: " ++ dc.provider)) ∧
    (generatePOST env s domain "dns-01" (some dc)).events =
      [GenEvent.orderCreated env.orderUrl] ∧
    (generatePOST env s domain "dns-01" (some dc)).store = s := by
  have hres : generatePOST env s domain "dns-01" (some dc) =
      { code := 500,
        body := ApiBody.err (genErrMessage ("Unsupported DNS provider: " ++ dc.provider)),
        store := s,
        events := [GenEvent.orderCreated env.orderUrl] } := by
    simp [generatePOST, hdom, hp, hk, hauths, hfind, generateDns01, hpend,
      challengeCreateDns01, hsup, genCatch]
  rw [hres]
  exact ⟨rfl, rfl, rfl, rfl⟩

/-- Witness for C4 (amended) at concrete inputs. -/
theorem C4_unsupported_provider_witness :
    (generatePOST
      ⟨"https://ca.test/order/7", [⟨"example.com", [⟨"dns-01", "pending", "https://ca.test/chall/7", "tokC4"⟩]⟩],
        "kaC4", "PK", "CSR", true, "werr", "CERT", "2026-01-01", "disp", true, true⟩
      emptyStore "example.com" "dns-01" (some ⟨"namecheap", "k"⟩)).code = 500 ∧
    (generatePOST
      ⟨"https://ca.test/order/7", [⟨"example.com", [⟨"dns-01", "pending", "https://ca.test/chall/7", "tokC4"⟩]⟩],
        "kaC4", "PK", "CSR", true, "werr", "CERT", "2026-01-01", "disp", true, true⟩
      emptyStore "example.com" "dns-01" (some ⟨"namecheap", "k"⟩)).events =
      [GenEvent.orderCreated "https://ca.test/order/7"] := by
  have h := C4_unsupported_provider
    ⟨"https://ca.test/order/7", [⟨"example.com", [⟨"dns-01", "pending", "https://ca.test/chall/7", "tokC4"⟩]⟩],
      "kaC4", "PK", "CSR", true, "werr", "CERT", "2026-01-01", "disp", true, true⟩
    emptyStore "example.com" ⟨"namecheap", "k"⟩
    ⟨"example.com", [⟨"dns-01", "pending", "https://ca.test/chall/7", "tokC4"⟩]⟩ []
    ⟨"dns-01", "pending", "https://ca.test/chall/7", "tokC4"⟩
    (by decide) (by decide) (by decide) (by decide) rfl (by decide) rfl
  exact ⟨h.1, h.2.2.1⟩

/-- Counterexample to C4 as stated: for the unsupported provider namecheap
the request does fail with the Unsupported DNS provider error, but the
order-creation call to the ACME server — a network side effect — has already
happened when it does. -/
theorem C4_counterexample :
    (generatePOST
      ⟨"https://ca.test/order/7", [⟨"example.com", [⟨"dns-01", "pending", "https://ca.test/chall/7", "tokC4"⟩]⟩],
        "kaC4", "PK", "CSR", true, "werr", "CERT", "2026-01-01", "disp", true, true⟩
      emptyStore "example.com" "dns-01" (some ⟨"namecheap", "k"⟩)).body =
      ApiBody.err "Unsupported DNS provider: namecheap" ∧
    (generatePOST
      ⟨"https://ca.test/order/7", [⟨"example.com", [⟨"dns-01", "pending", "https://ca.test/chall/7", "tokC4"⟩]⟩],
        "kaC4", "PK", "CSR", true, "werr", "CERT", "2026-01-01", "disp", true, true⟩
      emptyStore "example.com" "dns-01" (some ⟨"namecheap", "k"⟩)).events =
      [GenEvent.orderCreated "https://ca.test/order/7"] := by
  decide

/-- Claim C5, evaluated at the failing input: a dns-01 generate request whose
TXT record is created (the create adapter call site is reached for the
supported provider cloudflare) and whose ACME validation then fails (the
wait rejects) ends in the catch handler with a 500 — and the event trace
shows the TXT-removal call site was never reached: the cleanup that the
route's own catch-handler comment claims is handled inside the dns-01 block
is skipped on this failure path. -/
theorem C5_missing_cleanup_eval :
    (generatePOST
      ⟨"https://ca.test/order/5", [⟨"example.com", [⟨"dns-01", "pending", "https://ca.test/chall/5", "tokC5"⟩]⟩],
        "kaC5", "PK", "CSR", false, "Verify error: challenge failed", "CERT", "2026-01-01", "disp",
        true, true⟩
      emptyStore "example.com" "dns-01" (some ⟨"cloudflare", "k"⟩)).code = 500 ∧
    (generatePOST
      ⟨"https://ca.test/order/5", [⟨"example.com", [⟨"dns-01", "pending", "https://ca.test/chall/5", "tokC5"⟩]⟩],
        "kaC5", "PK", "CSR", false, "Verify error: challenge failed", "CERT", "2026-01-01", "disp",
        true, true⟩
      emptyStore "example.com" "dns-01" (some ⟨"cloudflare", "k"⟩)).events =
      [GenEvent.orderCreated "https://ca.test/order/5",
       GenEvent.txtCreated "cloudflare" "_acme-challenge.example.com" "kaC5",
       GenEvent.validateRequested "https://ca.test/chall/5"] := by
  decide

/-- Claim C7: renewal re-runs issuance with exactly the challenge type read
from the stored per-domain configuration.  A domain whose stored
configuration says dns-01 (with stored credentials) renews through the
DNS-01 flow — the TXT-create adapter is invoked with the stored provider and
the configuration written back keeps the same credentials, and the response
reports challenge type dns-01; a domain whose stored configuration says
http-01 renews through the HTTP-01 flow and answers with a fresh
http-01-pending descriptor.  The method is never switched. -/
theorem C7_renewal_preserves_method :
    (∀ (env : GenEnv) (s : Store) (domain : String) (c : CertificateConfig) (dc : DnsConfig)
        (auth : AcmeAuth) (rest : List AcmeAuth) (chall : AcmeChallenge),
      domain ≠ "" →
      retrieveCertificateConfig s domain = some c →
      c.challengeType = "dns-01" →
      c.dnsConfig = some dc →
      dc.apiKey ≠ "" →
      supportedDnsProvider dc.provider = true →
      env.auths = auth :: rest →
      auth.challenges.find? (fun x => x.ctype = "dns-01") = some chall →
      chall.cstatus = "pending" →
      env.validationOk = true →
      (renewPOST env s domain).code = 200 ∧
      (renewPOST env s domain).body =
        ApiBody.issued
          ⟨"issued", domain, env.certificatePem, env.privateKeyPem, "dns-01", env.expiresAt,
            "Certificate for " ++ domain ++ " renewed successfully via automated DNS-01. Expires: "
              ++ env.expiresAtDisplay ++ "."⟩ ∧
      GenEvent.txtCreated dc.provider ("_acme-challenge." ++ auth.identifier)
        env.keyAuthorization ∈ (renewPOST env s domain).events ∧
      retrieveCertificateConfig (renewPOST env s domain).store domain =
        some ⟨domain, "dns-01", some dc⟩) ∧
    (∀ (env : GenEnv) (s : Store) (domain : String) (c : CertificateConfig)
        (auth : AcmeAuth) (rest : List AcmeAuth) (chall : AcmeChallenge),
      domain ≠ "" →
      retrieveCertificateConfig s domain = some c →
      c.challengeType = "http-01" →
      env.auths = auth :: rest →
      auth.challenges.find? (fun x => x.ctype = "http-01") = some chall →
      env.pendingWriteOk = true →
      env.challengeWriteOk = true →
      (renewPOST env s domain).code = 200 ∧
      (renewPOST env s domain).body =
        ApiBody.pending
          ⟨"http-01-pending", domain, chall.token, env.keyAuthorization, chall.url, env.orderUrl,
            "HTTP-01 challenge required for renewal. Please ensure the file \x27/.well-known/acme-challenge/"
              ++ chall.token ++ "\x27 is accessible on http://" ++ domain
              ++ " with the provided content, then click \x27Verify\x27."⟩) := by
  constructor
  · intro env s domain c dc auth rest chall hd hcfg hct hdc hk hsup hauths hfind hpend hval
    have hres : renewPOST env s domain =
        { code := 200,
          body := ApiBody.issued
            ⟨"issued", domain, env.certificatePem, env.privateKeyPem, "dns-01", env.expiresAt,
              "Certificate for " ++ domain ++ " renewed successfully via automated DNS-01. Expires: "
                ++ env.expiresAtDisplay ++ "."⟩,
          store := storeCertificate s domain env.certificatePem env.privateKeyPem
            ⟨domain, "dns-01", some dc⟩,
          events :=
            [GenEvent.orderCreated env.orderUrl,
             GenEvent.txtCreated dc.provider ("_acme-challenge." ++ auth.identifier)
               env.keyAuthorization,
             GenEvent.validateRequested chall.url,
             GenEvent.txtRemoveAttempted dc.provider ("_acme-challenge." ++ auth.identifier),
             GenEvent.orderFinalized] } := by
      simp [renewPOST, hd, hcfg, hct, hdc, hk, hauths, hfind, renewDns01, hpend,
        challengeCreateDns01, challengeRemoveDns01, hsup, hval]
    rw [hres]
    refine ⟨rfl, rfl, by simp, ?_⟩
    simp [storeCertificate, retrieveCertificateConfig, kvLookup_insert_self]
  · intro env s domain c auth rest chall hd hcfg hct hauths hfind hpw hcw
    have hres2 : (renewPOST env s domain).code = 200 ∧ (renewPOST env s domain).body =
        ApiBody.pending
          ⟨"http-01-pending", domain, chall.token, env.keyAuthorization, chall.url, env.orderUrl,
            "HTTP-01 challenge required for renewal. Please ensure the file \x27/.well-known/acme-challenge/"
              ++ chall.token ++ "\x27 is accessible on http://" ++ domain
              ++ " with the provided content, then click \x27Verify\x27."⟩ := by
      simp [renewPOST, hd, hcfg, hct, hauths, hfind, renewHttp01, storePendingOrder,
        hpw, hcw, storeHttpChallenge]
    exact hres2

/-- Witness for C7 at concrete inputs: a stored dns-01 configuration renews
via DNS-01 and a stored http-01 configuration renews via HTTP-01. -/
theorem C7_renewal_preserves_method_witness :
    (renewPOST
      ⟨"https://ca.test/order/r1", [⟨"example.com", [⟨"dns-01", "pending", "https://ca.test/chall/r1", "tokR1"⟩]⟩],
        "kaR1", "PK1", "CSR1", true, "werr", "CERT1", "2026-01-01", "Jan 1 2026", true, true⟩
      ⟨[], [], [], [("example.com", ⟨"example.com", "dns-01", some ⟨"cloudflare", "keyA"⟩⟩)]⟩
      "example.com").body =
      ApiBody.issued
        ⟨"issued", "example.com", "CERT1", "PK1", "dns-01", "2026-01-01",
          "Certificate for example.com renewed successfully via automated DNS-01. Expires: Jan 1 2026."⟩ ∧
    (renewPOST
      ⟨"https://ca.test/order/r2", [⟨"example.org", [⟨"http-01", "pending", "https://ca.test/chall/r2", "tokR2"⟩]⟩],
        "kaR2", "PK2", "CSR2", true, "werr", "CERT2", "2026-01-01", "Jan 1 2026", true, true⟩
      ⟨[], [], [], [("example.org", ⟨"example.org", "http-01", none⟩)]⟩
      "example.org").body =
      ApiBody.pending
        ⟨"http-01-pending", "example.org", "tokR2", "kaR2", "https://ca.test/chall/r2",
          "https://ca.test/order/r2",
          "HTTP-01 challenge required for renewal. Please ensure the file \x27/.well-known/acme-challenge/tokR2\x27 is accessible on http://example.org with the provided content, then click \x27Verify\x27."⟩ := by
  constructor
  · exact ((C7_renewal_preserves_method.1
      ⟨"https://ca.test/order/r1", [⟨"example.com", [⟨"dns-01", "pending", "https://ca.test/chall/r1", "tokR1"⟩]⟩],
        "kaR1", "PK1", "CSR1", true, "werr", "CERT1", "2026-01-01", "Jan 1 2026", true, true⟩
      ⟨[], [], [], [("example.com", ⟨"example.com", "dns-01", some ⟨"cloudflare", "keyA"⟩⟩)]⟩
      "example.com" ⟨"example.com", "dns-01", some ⟨"cloudflare", "keyA"⟩⟩ ⟨"cloudflare", "keyA"⟩
      ⟨"example.com", [⟨"dns-01", "pending", "https://ca.test/chall/r1", "tokR1"⟩]⟩ []
      ⟨"dns-01", "pending", "https://ca.test/chall/r1", "tokR1"⟩
      (by decide) (by decide) rfl rfl (by decide) (by decide) rfl (by decide) rfl rfl).2.1)
  · exact ((C7_renewal_preserves_method.2
      ⟨"https://ca.test/order/r2", [⟨"example.org", [⟨"http-01", "pending", "https://ca.test/chall/r2", "tokR2"⟩]⟩],
        "kaR2", "PK2", "CSR2", true, "werr", "CERT2", "2026-01-01", "Jan 1 2026", true, true⟩
      ⟨[], [], [], [("example.org", ⟨"example.org", "http-01", none⟩)]⟩
      "example.org" ⟨"example.org", "http-01", none⟩
      ⟨"example.org", [⟨"http-01", "pending", "https://ca.test/chall/r2", "tokR2"⟩]⟩ []
      ⟨"http-01", "pending", "https://ca.test/chall/r2", "tokR2"⟩
      (by decide) (by decide) rfl rfl (by decide) rfl rfl).2)

end CertMagic
